import Mathlib

/-!
Verification of the API-key authentication and quota-accounting subsystem of
the Base-Api repository, as a shallow embedding in Lean 4.

Dates are modelled as day numbers (`Nat`), timestamps as milliseconds (`Int`),
SQL `INTEGER` columns as `Int`, and SQLite-style booleans as `Int` (1/0),
which is exactly how the middleware consumes them
(`auth.js`: `user.is_active !== 1`, commented there as an integer 1/0 check).
-/

namespace BaseApi

/-- A row of the `api_keys` table (`CREATE TABLE api_keys` in the two database
modules): `is_active` is a 1/0 flag, `expires_at` a nullable timestamp,
`last_reset_date` a calendar day. -/
structure ApiKeyRow where
  id : Nat
  user_id : Nat
  key_value : String
  name : String
  is_active : Int
  daily_limit : Int
  requests_today : Int
  last_reset_date : Nat
  expires_at : Option Int
deriving DecidableEq, Repr

/-- A row of the `users` table, restricted to the columns the middleware
reads. -/
structure UserRow where
  id : Nat
  email : String
  full_name : String
  plan : String
  is_verified : Int
  is_active : Int
deriving DecidableEq, Repr

/-- The result object of the ledger primitive `checkAndUpdateApiKeyUsage`
(`allowed`, `remaining`, `limit`) as built in both database modules. -/
structure UsageDecision where
  allowed : Bool
  remaining : Int
  lim : Int
deriving DecidableEq, Repr

/-- The first UPDATE of `checkAndUpdateApiKeyUsage`: when
`last_reset_date < CURRENT_DATE`, set `requests_today` to 0 and
`last_reset_date` to `CURRENT_DATE`; otherwise leave both columns as they
are. -/
def rollover (today : Nat) (k : ApiKeyRow) : ApiKeyRow :=
  if k.last_reset_date < today then
    { k with requests_today := 0, last_reset_date := today }
  else
    k

/-- The body of `checkAndUpdateApiKeyUsage` on the row selected by the key id:
after the rollover UPDATE it reads `requests_today` and `daily_limit`; when
`requests_today < daily_limit` it increments the counter and reports
`allowed = true, remaining = daily_limit - requests_today - 1`; otherwise it
leaves the row untouched and reports `allowed = false, remaining = 0`.
Returns the decision together with the row as the transaction leaves it. -/
def checkAndUpdateApiKeyUsageRow (today : Nat) (row : ApiKeyRow) :
    UsageDecision × ApiKeyRow :=
  let r1 := rollover today row
  if r1.requests_today < r1.daily_limit then
    ({ allowed := true,
       remaining := r1.daily_limit - r1.requests_today - 1,
       lim := r1.daily_limit },
     { r1 with requests_today := r1.requests_today + 1 })
  else
    ({ allowed := false, remaining := 0, lim := r1.daily_limit }, r1)

/-- `checkAndUpdateApiKeyUsage` as called with a key id: when no row carries
the requested id the SELECT comes back empty and the function throws
(`API key not found`); otherwise it operates on that row. -/
def checkAndUpdateApiKeyUsage (today : Nat) (row? : Option ApiKeyRow) :
    Except String (UsageDecision × ApiKeyRow) :=
  match row? with
  | none => .error "API key not found"
  | some row => .ok (checkAndUpdateApiKeyUsageRow today row)

/-- The stored row after `n` sequential `checkAndUpdateApiKeyUsage` calls on
the same key on day `today`. -/
def consumeN (today : Nat) : Nat → ApiKeyRow → ApiKeyRow
  | 0, k => k
  | n + 1, k => (checkAndUpdateApiKeyUsageRow today (consumeN today n k)).2

/-- Concrete key row used to instantiate the ledger theorems: limit 2, counter
0, last reset on day 5. -/
def kLedger : ApiKeyRow :=
  { id := 1, user_id := 1, key_value := "sk-abc-1", name := "Default API Key",
    is_active := 1, daily_limit := 2, requests_today := 0,
    last_reset_date := 5, expires_at := none }

/-- Concrete key row with a zero daily limit, counter at the limit, last reset
on day 4. -/
def kZeroLimit : ApiKeyRow :=
  { id := 2, user_id := 1, key_value := "sk-abc-2", name := "Zero",
    is_active := 1, daily_limit := 0, requests_today := 0,
    last_reset_date := 4, expires_at := none }

/-- Concrete key row at its limit on the current day. -/
def kFull : ApiKeyRow :=
  { id := 3, user_id := 1, key_value := "sk-abc-3", name := "Full",
    is_active := 1, daily_limit := 2, requests_today := 2,
    last_reset_date := 5, expires_at := none }

/-- Concrete key row at its limit with the last reset a day in the past. -/
def kStale : ApiKeyRow :=
  { id := 4, user_id := 1, key_value := "sk-abc-4", name := "Stale",
    is_active := 1, daily_limit := 3, requests_today := 3,
    last_reset_date := 4, expires_at := none }

/-- A row of the `usage_logs` table: `status_code` and `response_time` are
nullable until the response phase fills them in. -/
structure UsageLogEntry where
  user_id : Nat
  api_key_id : Nat
  endpoint : String
  status_code : Option Int
  response_time : Option Int
  ip_address : String
deriving DecidableEq, Repr

/-- The persisted store as the middleware sees it. -/
structure Db where
  users : List UserRow
  keys : List ApiKeyRow
  usage_logs : List UsageLogEntry
deriving DecidableEq, Repr

/-- SELECT a users row by id. -/
def lookupUserById : List UserRow → Nat → Option UserRow
  | [], _ => none
  | u :: rest, uid => if u.id = uid then some u else lookupUserById rest uid

/-- SELECT an api_keys row by key_value. -/
def lookupKeyByValue : List ApiKeyRow → String → Option ApiKeyRow
  | [], _ => none
  | k :: rest, kv =>
    if k.key_value = kv then some k else lookupKeyByValue rest kv

/-- SELECT an api_keys row by id. -/
def lookupKeyById : List ApiKeyRow → Nat → Option ApiKeyRow
  | [], _ => none
  | k :: rest, kid => if k.id = kid then some k else lookupKeyById rest kid

/-- UPDATE the api_keys row carrying the given id. -/
def setKeyRow : List ApiKeyRow → Nat → ApiKeyRow → List ApiKeyRow
  | [], _, _ => []
  | j :: rest, kid, k2 =>
    (if j.id = kid then k2 else j) :: setKeyRow rest kid k2

/-- Modelled from the spec: `database.findApiKeyByValue`, the store lookup
the middleware calls, is not under `src/`; spec section 6 declares
`store.findApiKeyByValue(key) -> ApiKeyRow?`. It selects the key row by its
`key_value`; since the middleware reads a `user_active` field on the result
(`auth.js` line 129), the lookup joins in the owning user record and exposes
that record's `is_active` flag (0 when the owning user row is absent). -/
def findApiKeyByValue (db : Db) (kv : String) : Option (ApiKeyRow × Int) :=
  match lookupKeyByValue db.keys kv with
  | none => none
  | some k =>
    match lookupUserById db.users k.user_id with
    | some u => some (k, u.is_active)
    | none => some (k, 0)

/-- Modelled from the spec: `database.updateApiKeyUsage`, the usage update
the middleware calls, is not under `src/`. Spec section 6 declares
`store.updateApiKeyUsageAtomic(keyId)` as returning the pair
`requests_today, daily_limit` or throwing; spec section 4.2 step 1 rolls the
counter over on a new day; and the data model in spec section 3 describes
`requests_today` as monotonically increasing within a day, so the update
increments the counter unconditionally and returns the post-update pair —
the caller enforces the daily limit by comparing the two returned values
(`auth.js` line 150). An unknown key id yields no result, which the
middleware maps to `USAGE_CHECK_FAILED`. -/
def updateApiKeyUsage (today : Nat) (db : Db) (keyId : Nat) :
    Option (Int × Int) × Db :=
  match lookupKeyById db.keys keyId with
  | none => (none, db)
  | some k =>
    let k1 := rollover today k
    let k2 := { k1 with requests_today := k1.requests_today + 1 }
    (some (k2.requests_today, k2.daily_limit),
     { db with keys := setKeyRow db.keys keyId k2 })

/-- INSERT a usage_logs row (`logUsage`: an append). -/
def logUsage (db : Db) (e : UsageLogEntry) : Db :=
  { db with usage_logs := db.usage_logs ++ [e] }

/-- The optional `data` object attached to an error response; the JS `limit`
field is modelled as `lim`. -/
structure ErrData where
  expires_at : Option Int := none
  lim : Option Int := none
  used : Option Int := none
  remaining : Option Int := none
deriving DecidableEq, Repr

/-- The principal the API-key middleware attaches as `req.user`. -/
structure KeyPrincipal where
  id : Nat
  email : String
  plan : String
deriving DecidableEq, Repr

/-- The usage snapshot attached as `req.usage`; the JS `limit` field is
modelled as `lim`. -/
structure UsageSnapshot where
  used : Int
  lim : Int
  remaining : Int
deriving DecidableEq, Repr

/-- What a middleware invocation does with the request: `halt` sends an error
response (HTTP status and machine-readable code, with optional data) without
invoking the downstream handler; `next` hands the request to the downstream
handler, carrying whatever the middleware attached to it. -/
inductive Outcome where
  | halt (status : Nat) (code : String) (data : ErrData)
  | next (user : Option KeyPrincipal) (apiKeyId : Option Nat)
      (usage : Option UsageSnapshot)
deriving DecidableEq, Repr

/-- True when the middleware invoked the downstream handler. -/
def Outcome.callsNext : Outcome → Bool
  | .halt _ _ _ => false
  | .next _ _ _ => true

/-- The request fields the API-key middleware reads. -/
structure ApiRequest where
  xApiKey : Option String
  authHeader : Option String
  queryApiKey : Option String
  path : String
  ip : String
deriving DecidableEq, Repr

/-- Strip one leading `Bearer ` prefix, as the middleware does on the
`authorization` header. -/
def stripBearer (s : String) : String :=
  if "Bearer ".isPrefixOf s then s.drop 7 else s

/-- The key-resolution expression at the top of `authenticateApiKey` and
`optionalApiKey`: the `x-api-key` header, else the `authorization` header
with its `Bearer ` prefix stripped, else the `api_key` query parameter. -/
def resolveApiKey (req : ApiRequest) : Option String :=
  match req.xApiKey with
  | some v => some v
  | none =>
    match req.authHeader with
    | some a => some (stripBearer a)
    | none => req.queryApiKey

/-- The expiry test on a nullable timestamp:
`expires_at && new Date(expires_at) < new Date()`. -/
def isExpired (now : Int) : Option Int → Bool
  | none => false
  | some t => decide (t < now)

/-- `authenticateApiKey` from `src/middleware/auth.js`: resolves the key,
looks it up (`API_KEY_MISSING` / `INVALID_API_KEY`), then checks in order the
key's own activity (`API_KEY_DEACTIVATED`), its expiry (`API_KEY_EXPIRED`,
with the stored `expires_at` as side data), and the owning user's activity
(`USER_INACTIVE`); then it performs the usage update (a falsy result becomes
`USAGE_CHECK_FAILED`, HTTP 500) and rejects with HTTP 429
`RATE_LIMIT_EXCEEDED` when the returned `requests_today` exceeds
`daily_limit`; otherwise it loads the owning user (`USER_NOT_FOUND` when
absent), attaches principal, key id and usage snapshot, appends a usage-log
row with null status and latency, and invokes the downstream handler. The
store primitives it calls are the spec-modelled ones above. -/
def authenticateApiKey (today : Nat) (now : Int) (req : ApiRequest)
    (db : Db) : Outcome × Db :=
  match resolveApiKey req with
  | none => (.halt 401 "API_KEY_MISSING" {}, db)
  | some kv =>
    match findApiKeyByValue db kv with
    | none => (.halt 401 "INVALID_API_KEY" {}, db)
    | some (keyData, user_active) =>
      if keyData.is_active ≠ 1 then
        (.halt 401 "API_KEY_DEACTIVATED" {}, db)
      else if isExpired now keyData.expires_at then
        (.halt 401 "API_KEY_EXPIRED" { expires_at := keyData.expires_at }, db)
      else if user_active ≠ 1 then
        (.halt 401 "USER_INACTIVE" {}, db)
      else
        match updateApiKeyUsage today db keyData.id with
        | (none, db1) => (.halt 500 "USAGE_CHECK_FAILED" {}, db1)
        | (some (requests_today, daily_limit), db1) =>
          if daily_limit < requests_today then
            (.halt 429 "RATE_LIMIT_EXCEEDED"
               { lim := some daily_limit, used := some requests_today,
                 remaining := some 0 }, db1)
          else
            match lookupUserById db1.users keyData.user_id with
            | none => (.halt 401 "USER_NOT_FOUND" {}, db1)
            | some user =>
              (.next
                 (some { id := user.id, email := user.email,
                         plan := user.plan })
                 (some keyData.id)
                 (some { used := requests_today, lim := daily_limit,
                         remaining := max 0 (daily_limit - requests_today) }),
               logUsage db1
                 { user_id := user.id, api_key_id := keyData.id,
                   endpoint := req.path, status_code := none,
                   response_time := none, ip_address := req.ip })

/-- `optionalApiKey` from `src/middleware/auth.js`: the optional variant
never rejects. When a key resolves, is found, is active and unexpired, it
performs the usage update — consuming a quota slot — and only afterwards, and
only when the returned count is within the limit and the owning user exists
and is active, attaches principal, key id and usage snapshot and appends the
usage-log row. Every branch invokes the downstream handler. -/
def optionalApiKey (today : Nat) (now : Int) (req : ApiRequest) (db : Db) :
    Outcome × Db :=
  match resolveApiKey req with
  | none => (.next none none none, db)
  | some kv =>
    match findApiKeyByValue db kv with
    | none => (.next none none none, db)
    | some (keyData, _) =>
      if keyData.is_active = 1 then
        if isExpired now keyData.expires_at then
          (.next none none none, db)
        else
          match updateApiKeyUsage today db keyData.id with
          | (none, db1) => (.next none none none, db1)
          | (some (requests_today, _), db1) =>
            if requests_today ≤ keyData.daily_limit then
              match lookupUserById db1.users keyData.user_id with
              | none => (.next none none none, db1)
              | some user =>
                if user.is_active = 1 then
                  (.next
                     (some { id := user.id, email := user.email,
                             plan := user.plan })
                     (some keyData.id)
                     (some { used := requests_today,
                             lim := keyData.daily_limit,
                             remaining :=
                               max 0 (keyData.daily_limit - requests_today) }),
                   logUsage db1
                     { user_id := user.id, api_key_id := keyData.id,
                       endpoint := req.path, status_code := none,
                       response_time := none, ip_address := req.ip })
                else (.next none none none, db1)
            else (.next none none none, db1)
      else (.next none none none, db)

/-- The `res.send` wrapper installed by `responseTimeLogger`: at response
time, when the request carries both `req.apiKey` and `req.user`, it appends a
second usage-log row carrying the response status code and latency. -/
def responseTimeSend (out : Outcome) (statusCode responseTime : Int)
    (path ip : String) (db : Db) : Db :=
  match out with
  | .next (some user) (some keyId) _ =>
    logUsage db
      { user_id := user.id, api_key_id := keyId, endpoint := path,
        status_code := some statusCode, response_time := some responseTime,
        ip_address := ip }
  | _ => db

/-- The observable effect of one `rateLimiter` invocation. -/
structure RateOutcome where
  nextCalled : Bool
  response : Option (Nat × String)
  timestamps : List Int
deriving DecidableEq, Repr

/-- One invocation of the closure returned by `rateLimiter(limit, windowMs)`
on the timestamp list stored for the caller's key (the API-key id when
present, else the caller IP; a key with no entry holds the empty list): it
keeps the stored timestamps strictly newer than `now - windowMs`, rejects
with HTTP 429 `RATE_LIMITED` when at least `limit` of them remain — leaving
the stored list untouched — and otherwise appends `now` to the kept list,
stores it and invokes the downstream handler. The JS `limit` parameter is
modelled as `lim`. -/
def rateLimiter (lim : Nat) (windowMs now : Int) (stored : List Int) :
    RateOutcome :=
  let windowStart := now - windowMs
  let userRequests := stored.filter (fun t => decide (windowStart < t))
  if lim ≤ userRequests.length then
    { nextCalled := false, response := some (429, "RATE_LIMITED"),
      timestamps := stored }
  else
    { nextCalled := true, response := none,
      timestamps := userRequests ++ [now] }

/-- The claims payload of a decoded bearer token, as `generateToken` signs it
(id, email, plan); `userId` is kept because `authenticateToken` reads
`decoded.id || decoded.userId`. -/
structure TokenClaims where
  id : Option Nat
  userId : Option Nat
  email : String
  plan : String
deriving DecidableEq, Repr

/-- The possible outcomes of `jwt.verify` (an external library): a valid
token yields its claims, otherwise a TokenExpiredError or a
JsonWebTokenError is thrown. -/
inductive JwtVerify where
  | ok (claims : TokenClaims)
  | expiredTokenErr
  | invalidTokenErr
deriving DecidableEq, Repr

/-- The principal `authenticateToken` attaches as `req.user`, built from the
stored user record. -/
structure TokenPrincipal where
  id : Nat
  email : String
  full_name : String
  plan : String
  is_verified : Bool
  is_active : Bool
deriving DecidableEq, Repr

/-- Outcome of the bearer-token middleware. -/
inductive TokenOutcome where
  | halt (status : Nat) (code : String)
  | next (user : TokenPrincipal)
deriving DecidableEq, Repr

/-- The subject identifier read from the claims:
`decoded.id || decoded.userId`. -/
def subjectOf (c : TokenClaims) : Option Nat :=
  match c.id with
  | some i => some i
  | none => c.userId

/-- `authenticateToken` from `src/middleware/auth.js`: a missing token is
`TOKEN_REQUIRED`; a failed verification maps the thrown error to
`TOKEN_EXPIRED` (401) or `INVALID_TOKEN` (403); on success the subject user
is loaded fresh from the store — `USER_NOT_FOUND` when absent,
`ACCOUNT_DEACTIVATED` when its `is_active` flag is not 1 — and otherwise the
principal built from the stored record is attached and the downstream
handler invoked. The argument is `none` when no bearer token is present,
else the result of `jwt.verify` on the presented token. -/
def authenticateToken (token : Option JwtVerify) (users : List UserRow) :
    TokenOutcome :=
  match token with
  | none => .halt 401 "TOKEN_REQUIRED"
  | some .expiredTokenErr => .halt 401 "TOKEN_EXPIRED"
  | some .invalidTokenErr => .halt 403 "INVALID_TOKEN"
  | some (.ok claims) =>
    match subjectOf claims with
    | none => .halt 401 "USER_NOT_FOUND"
    | some uid =>
      match lookupUserById users uid with
      | none => .halt 401 "USER_NOT_FOUND"
      | some user =>
        if user.is_active ≠ 1 then .halt 401 "ACCOUNT_DEACTIVATED"
        else
          .next { id := user.id, email := user.email,
                  full_name := user.full_name, plan := user.plan,
                  is_verified := decide (user.is_verified = 1),
                  is_active := decide (user.is_active = 1) }

/-- Concrete active user for the middleware witnesses. -/
def uActive : UserRow :=
  { id := 1, email := "a@b.c", full_name := "A B", plan := "free",
    is_verified := 1, is_active := 1 }

/-- Concrete deactivated user. -/
def uInactive : UserRow :=
  { id := 1, email := "a@b.c", full_name := "A B", plan := "free",
    is_verified := 1, is_active := 0 }

/-- Concrete request presenting the key value of `kFull` in the `x-api-key`
header. -/
def reqFull : ApiRequest :=
  { xApiKey := some "sk-abc-3", authHeader := none, queryApiKey := none,
    path := "/api/test", ip := "127.0.0.1" }

/-- Concrete request presenting the key value of `kLedger`. -/
def reqLedger : ApiRequest :=
  { xApiKey := some "sk-abc-1", authHeader := none, queryApiKey := none,
    path := "/api/ai", ip := "10.0.0.1" }

/-- Concrete store holding `uActive` and the fresh key `kLedger` with no
usage-log rows. -/
def dbLedger : Db :=
  { users := [uActive], keys := [kLedger], usage_logs := [] }

/-- Concrete expired key (expiry timestamp 100, still active). -/
def kExpired : ApiKeyRow :=
  { id := 5, user_id := 1, key_value := "sk-abc-5", name := "Expired",
    is_active := 1, daily_limit := 100, requests_today := 7,
    last_reset_date := 5, expires_at := some 100 }

/-- Concrete request presenting the key value of `kExpired`. -/
def reqExpired : ApiRequest :=
  { xApiKey := some "sk-abc-5", authHeader := none, queryApiKey := none,
    path := "/api/test", ip := "127.0.0.1" }

/-- Concrete token claims naming user 1 as subject. -/
def claimsU1 : TokenClaims :=
  { id := some 1, userId := none, email := "a@b.c", plan := "free" }

lemma rollover_of_same_day (today : Nat) (k : ApiKeyRow)
    (h : ¬ k.last_reset_date < today) : rollover today k = k := by
  simp [rollover, h]

@[simp] lemma rollover_id (today : Nat) (k : ApiKeyRow) :
    (rollover today k).id = k.id := by
  simp only [rollover]; split <;> rfl

@[simp] lemma rollover_user_id (today : Nat) (k : ApiKeyRow) :
    (rollover today k).user_id = k.user_id := by
  simp only [rollover]; split <;> rfl

@[simp] lemma rollover_key_value (today : Nat) (k : ApiKeyRow) :
    (rollover today k).key_value = k.key_value := by
  simp only [rollover]; split <;> rfl

@[simp] lemma rollover_is_active (today : Nat) (k : ApiKeyRow) :
    (rollover today k).is_active = k.is_active := by
  simp only [rollover]; split <;> rfl

@[simp] lemma rollover_daily_limit (today : Nat) (k : ApiKeyRow) :
    (rollover today k).daily_limit = k.daily_limit := by
  simp only [rollover]; split <;> rfl

@[simp] lemma rollover_expires_at (today : Nat) (k : ApiKeyRow) :
    (rollover today k).expires_at = k.expires_at := by
  simp only [rollover]; split <;> rfl

lemma consumeN_counts (today : Nat) (L : Nat) (k : ApiKeyRow)
    (hday : k.last_reset_date = today) (hzero : k.requests_today = 0)
    (hlim : k.daily_limit = (L : Int)) :
    ∀ n, n ≤ L → consumeN today n k = { k with requests_today := (n : Int) } := by
  intro n
  induction n with
  | zero =>
    intro _
    simp [consumeN, ← hzero]
  | succ m ih =>
    intro hm
    have hmL : m ≤ L := Nat.le_of_succ_le hm
    have hrec := ih hmL
    have hlt : (m : Int) < k.daily_limit := by
      rw [hlim]
      exact_mod_cast hm
    simp only [consumeN, hrec, checkAndUpdateApiKeyUsageRow]
    rw [rollover_of_same_day today _ (by simp [hday])]
    simp [hlt]

/-- C1: for a key with `daily_limit = L` whose counter starts at 0 on the
current day, each of the first L sequential `checkAndConsume` calls is allowed
and returns `remaining = daily_limit - requests_today(before) - 1`, and the
call after the L-th (the L+1-th) returns `allowed = false, remaining = 0`,
leaving the row unchanged. -/
theorem c1_daily_limit_exhaustion (today L i : Nat) (k : ApiKeyRow)
    (hday : k.last_reset_date = today) (hzero : k.requests_today = 0)
    (hlim : k.daily_limit = (L : Int)) (hi : i < L) :
    checkAndUpdateApiKeyUsage today (some (consumeN today i k)) =
      .ok ({ allowed := true, remaining := (L : Int) - (i : Int) - 1,
             lim := (L : Int) }, consumeN today (i + 1) k) ∧
    checkAndUpdateApiKeyUsage today (some (consumeN today L k)) =
      .ok ({ allowed := false, remaining := 0, lim := (L : Int) },
           consumeN today L k) := by
  have hcount := consumeN_counts today L k hday hzero hlim
  constructor
  · have h1 := hcount i (Nat.le_of_lt hi)
    have h2 := hcount (i + 1) hi
    have hlt : (i : Int) < (L : Int) := by exact_mod_cast hi
    simp only [checkAndUpdateApiKeyUsage, consumeN, h1, h2,
      checkAndUpdateApiKeyUsageRow]
    rw [rollover_of_same_day today _ (by simp [hday])]
    simp [hlim, hlt]
  · have hL := hcount L (Nat.le_refl L)
    simp only [checkAndUpdateApiKeyUsage, hL, checkAndUpdateApiKeyUsageRow]
    rw [rollover_of_same_day today _ (by simp [hday])]
    simp [hlim]

/-- Witness for C1 at the concrete key `kLedger` (limit 2), day 5, call
index 1. -/
theorem c1_daily_limit_exhaustion_witness :
    checkAndUpdateApiKeyUsage 5 (some (consumeN 5 1 kLedger)) =
      .ok ({ allowed := true, remaining := (2 : Int) - (1 : Int) - 1,
             lim := (2 : Int) }, consumeN 5 (1 + 1) kLedger) ∧
    checkAndUpdateApiKeyUsage 5 (some (consumeN 5 2 kLedger)) =
      .ok ({ allowed := false, remaining := 0, lim := (2 : Int) },
           consumeN 5 2 kLedger) :=
  c1_daily_limit_exhaustion 5 2 1 kLedger rfl rfl rfl (by decide)

/-- C2 counterexample: a key whose `daily_limit` is 0 satisfies the claim
hypotheses (`last_reset_date` strictly before today, `requests_today` equal to
the limit), yet the call today is denied rather than allowed, and the stored
counter ends at 0, not 1. -/
theorem c2_rollover_counterexample :
    kZeroLimit.last_reset_date < 5 ∧
    kZeroLimit.requests_today = kZeroLimit.daily_limit ∧
    checkAndUpdateApiKeyUsage 5 (some kZeroLimit) =
      .ok ({ allowed := false, remaining := 0, lim := 0 },
           { kZeroLimit with last_reset_date := 5 }) ∧
    ¬ (checkAndUpdateApiKeyUsageRow 5 kZeroLimit).1.allowed = true := by
  refine ⟨by decide, by decide, by rfl, by decide⟩

/-- C2 (amended with `1 ≤ L`): a key with `last_reset_date` strictly before
today and `requests_today = daily_limit = L ≥ 1` is first reset, then allowed
with `remaining = L - 1`, and the stored row ends at
`last_reset_date = today, requests_today = 1`; moreover the rollover is a
no-op on the post-state, so the reset happens at most once per day. -/
theorem c2_day_rollover (today L : Nat) (k : ApiKeyRow)
    (hpast : k.last_reset_date < today)
    (_heq : k.requests_today = k.daily_limit)
    (hlim : k.daily_limit = (L : Int)) (hL : 1 ≤ L) :
    checkAndUpdateApiKeyUsage today (some k) =
      .ok ({ allowed := true, remaining := (L : Int) - 1, lim := (L : Int) },
           { k with requests_today := 1, last_reset_date := today }) ∧
    rollover today (checkAndUpdateApiKeyUsageRow today k).2 =
      (checkAndUpdateApiKeyUsageRow today k).2 := by
  have hLpos : (0 : Int) < (L : Int) := by exact_mod_cast hL
  have hstep : checkAndUpdateApiKeyUsageRow today k =
      ({ allowed := true, remaining := (L : Int) - 1, lim := (L : Int) },
       { k with requests_today := 1, last_reset_date := today }) := by
    simp only [checkAndUpdateApiKeyUsageRow, rollover, hpast, if_true]
    simp [hlim, hLpos]
  refine ⟨by simp [checkAndUpdateApiKeyUsage, hstep], ?_⟩
  rw [hstep]
  exact rollover_of_same_day today _ (by simp)

/-- Witness for C2 at the concrete key `kStale` (limit 3, counter 3, last
reset on day 4), day 5. -/
theorem c2_day_rollover_witness :
    checkAndUpdateApiKeyUsage 5 (some kStale) =
      .ok ({ allowed := true, remaining := (3 : Int) - 1, lim := (3 : Int) },
           { kStale with requests_today := 1, last_reset_date := 5 }) ∧
    rollover 5 (checkAndUpdateApiKeyUsageRow 5 kStale).2 =
      (checkAndUpdateApiKeyUsageRow 5 kStale).2 :=
  c2_day_rollover 5 3 kStale (by decide) (by decide) rfl (by decide)

/-- C3: when the post-rollover counter has reached the limit, the call
returns `allowed = false, remaining = 0` and leaves `requests_today`
unchanged (the stored row is exactly the post-rollover row). -/
theorem c3_denial_no_consume (today : Nat) (k : ApiKeyRow)
    (h : (rollover today k).daily_limit ≤ (rollover today k).requests_today) :
    checkAndUpdateApiKeyUsage today (some k) =
      .ok ({ allowed := false, remaining := 0, lim := k.daily_limit },
           rollover today k) ∧
    (checkAndUpdateApiKeyUsageRow today k).2.requests_today =
      (rollover today k).requests_today := by
  have hlim : (rollover today k).daily_limit = k.daily_limit := by
    simp only [rollover]
    split <;> rfl
  have hnlt : ¬ (rollover today k).requests_today <
      (rollover today k).daily_limit := not_lt.mpr h
  constructor
  · simp only [checkAndUpdateApiKeyUsage, checkAndUpdateApiKeyUsageRow]
    rw [if_neg hnlt, hlim]
  · simp only [checkAndUpdateApiKeyUsageRow]
    rw [if_neg hnlt]

/-- Witness for C3 at the concrete key `kFull` (limit 2, counter 2, same
day), day 5. -/
theorem c3_denial_no_consume_witness :
    checkAndUpdateApiKeyUsage 5 (some kFull) =
      .ok ({ allowed := false, remaining := 0, lim := kFull.daily_limit },
           rollover 5 kFull) ∧
    (checkAndUpdateApiKeyUsageRow 5 kFull).2.requests_today =
      (rollover 5 kFull).requests_today :=
  c3_denial_no_consume 5 kFull (by decide)

/-- C9: the ledger call preserves the counter bounds: from a row with
`0 ≤ requests_today ≤ daily_limit` it produces a row with
`0 ≤ requests_today ≤ daily_limit` (the counter is incremented only when
strictly below the limit). -/
theorem c9_counter_bounds (today : Nat) (k : ApiKeyRow)
    (h0 : 0 ≤ k.requests_today) (h1 : k.requests_today ≤ k.daily_limit) :
    0 ≤ (checkAndUpdateApiKeyUsageRow today k).2.requests_today ∧
    (checkAndUpdateApiKeyUsageRow today k).2.requests_today ≤
      (checkAndUpdateApiKeyUsageRow today k).2.daily_limit := by
  simp only [checkAndUpdateApiKeyUsageRow, rollover]
  split_ifs <;> simp_all <;> omega

/-- Witness for C9 at the concrete key `kLedger`, day 6. -/
theorem c9_counter_bounds_witness :
    0 ≤ (checkAndUpdateApiKeyUsageRow 6 kLedger).2.requests_today ∧
    (checkAndUpdateApiKeyUsageRow 6 kLedger).2.requests_today ≤
      (checkAndUpdateApiKeyUsageRow 6 kLedger).2.daily_limit :=
  c9_counter_bounds 6 kLedger (by decide) (by decide)

/-- C4: a request presenting a valid, active, unexpired key whose owning user
is active and whose daily quota is already exhausted is rejected with HTTP
429 and code `RATE_LIMIT_EXCEEDED`, the data carrying the key's daily limit,
its `requests_today` as returned by the usage update, and remaining 0; the
downstream handler is not invoked. -/
theorem c4_rate_limit_429 (today : Nat) (now : Int) (req : ApiRequest)
    (u : UserRow) (k : ApiKeyRow) (logs : List UsageLogEntry)
    (hres : resolveApiKey req = some k.key_value)
    (hact : k.is_active = 1)
    (hexp : isExpired now k.expires_at = false)
    (huid : u.id = k.user_id)
    (huact : u.is_active = 1)
    (hfull : k.daily_limit ≤ (rollover today k).requests_today) :
    authenticateApiKey today now req
        { users := [u], keys := [k], usage_logs := logs } =
      (.halt 429 "RATE_LIMIT_EXCEEDED"
         { lim := some k.daily_limit,
           used := some ((rollover today k).requests_today + 1),
           remaining := some 0 },
       { users := [u],
         keys := [{ rollover today k with
           requests_today := (rollover today k).requests_today + 1 }],
         usage_logs := logs }) ∧
    (authenticateApiKey today now req
        { users := [u], keys := [k], usage_logs := logs }).1.callsNext =
      false := by
  have hlt : k.daily_limit < (rollover today k).requests_today + 1 :=
    Int.lt_add_one_iff.mpr hfull
  have hmain : authenticateApiKey today now req
      { users := [u], keys := [k], usage_logs := logs } =
      (.halt 429 "RATE_LIMIT_EXCEEDED"
         { lim := some k.daily_limit,
           used := some ((rollover today k).requests_today + 1),
           remaining := some 0 },
       { users := [u],
         keys := [{ rollover today k with
           requests_today := (rollover today k).requests_today + 1 }],
         usage_logs := logs }) := by
    simp [authenticateApiKey, hres, findApiKeyByValue, lookupKeyByValue,
      lookupUserById, updateApiKeyUsage, lookupKeyById, setKeyRow,
      hact, hexp, huid, huact, hlt]
  refine ⟨hmain, ?_⟩
  rw [hmain]
  rfl

/-- Witness for C4 at the exhausted key `kFull` owned by `uActive`, day 5. -/
theorem c4_rate_limit_429_witness :
    authenticateApiKey 5 1000 reqFull
        { users := [uActive], keys := [kFull], usage_logs := [] } =
      (.halt 429 "RATE_LIMIT_EXCEEDED"
         { lim := some kFull.daily_limit,
           used := some ((rollover 5 kFull).requests_today + 1),
           remaining := some 0 },
       { users := [uActive],
         keys := [{ rollover 5 kFull with
           requests_today := (rollover 5 kFull).requests_today + 1 }],
         usage_logs := [] }) ∧
    (authenticateApiKey 5 1000 reqFull
        { users := [uActive], keys := [kFull],
          usage_logs := [] }).1.callsNext = false :=
  c4_rate_limit_429 5 1000 reqFull uActive kFull [] rfl rfl rfl rfl rfl
    (by decide)

/-- C7: a request presenting an active key whose stored `expires_at` lies in
the past is rejected with HTTP 401 and code `API_KEY_EXPIRED`, the response
data carrying the stored `expires_at` unchanged, and the store is left
untouched (the usage update is never reached); moreover, on the same key
with its active flag cleared, the `API_KEY_DEACTIVATED` rejection wins, so
the expiry check sits after the activity check. -/
theorem c7_expired_key (today : Nat) (now t : Int) (req : ApiRequest)
    (u : UserRow) (k : ApiKeyRow) (logs : List UsageLogEntry)
    (hres : resolveApiKey req = some k.key_value)
    (hact : k.is_active = 1)
    (hexp : k.expires_at = some t) (ht : t < now) :
    authenticateApiKey today now req
        { users := [u], keys := [k], usage_logs := logs } =
      (.halt 401 "API_KEY_EXPIRED" { expires_at := some t },
       { users := [u], keys := [k], usage_logs := logs }) ∧
    authenticateApiKey today now req
        { users := [u], keys := [{ k with is_active := 0 }],
          usage_logs := logs } =
      (.halt 401 "API_KEY_DEACTIVATED" { },
       { users := [u], keys := [{ k with is_active := 0 }],
         usage_logs := logs }) := by
  constructor
  · by_cases h2 : u.id = k.user_id <;>
      simp [authenticateApiKey, hres, findApiKeyByValue, lookupKeyByValue,
        lookupUserById, hact, hexp, isExpired, ht, h2]
  · by_cases h2 : u.id = k.user_id <;>
      simp [authenticateApiKey, hres, findApiKeyByValue, lookupKeyByValue,
        lookupUserById, h2]

/-- Witness for C7 at the expired key `kExpired` (expiry 100), now 1000,
day 5. -/
theorem c7_expired_key_witness :
    authenticateApiKey 5 1000 reqExpired
        { users := [uActive], keys := [kExpired], usage_logs := [] } =
      (.halt 401 "API_KEY_EXPIRED" { expires_at := some 100 },
       { users := [uActive], keys := [kExpired], usage_logs := [] }) ∧
    authenticateApiKey 5 1000 reqExpired
        { users := [uActive], keys := [{ kExpired with is_active := 0 }],
          usage_logs := [] } =
      (.halt 401 "API_KEY_DEACTIVATED" { },
       { users := [uActive], keys := [{ kExpired with is_active := 0 }],
         usage_logs := [] }) :=
  c7_expired_key 5 1000 100 reqExpired uActive kExpired [] rfl rfl rfl
    (by decide)

/-- C8: a verified bearer token whose subject user is stored with
`is_active = 0` is rejected with 401 `ACCOUNT_DEACTIVATED` (no principal is
attached, the downstream handler is not invoked); with the same token and
the stored record reactivated, the request proceeds with the principal built
from the stored record — the decision follows the store, not the token
claims. -/
theorem c8_deactivated_user_token (claims : TokenClaims) (u : UserRow)
    (hsub : subjectOf claims = some u.id)
    (hinact : u.is_active = 0) :
    authenticateToken (some (.ok claims)) [u] =
      .halt 401 "ACCOUNT_DEACTIVATED" ∧
    authenticateToken (some (.ok claims)) [{ u with is_active := 1 }] =
      .next { id := u.id, email := u.email, full_name := u.full_name,
              plan := u.plan, is_verified := decide (u.is_verified = 1),
              is_active := true } := by
  constructor
  · simp [authenticateToken, hsub, lookupUserById, hinact]
  · simp [authenticateToken, hsub, lookupUserById]

/-- Witness for C8 at the deactivated user `uInactive` and the token claims
`claimsU1`. -/
theorem c8_deactivated_user_token_witness :
    authenticateToken (some (.ok claimsU1)) [uInactive] =
      .halt 401 "ACCOUNT_DEACTIVATED" ∧
    authenticateToken (some (.ok claimsU1)) [{ uInactive with
        is_active := 1 }] =
      .next { id := uInactive.id, email := uInactive.email,
              full_name := uInactive.full_name, plan := uInactive.plan,
              is_verified := decide (uInactive.is_verified = 1),
              is_active := true } :=
  c8_deactivated_user_token claimsU1 uInactive rfl rfl

/-- C10: in the optional API-key variant, a valid, active, unexpired key
whose owning user is deactivated still has one unit of its daily quota
consumed (the counter is incremented before the user check), while the
request proceeds with nothing attached; and every invocation of the variant,
on any input, invokes the downstream handler. -/
theorem c10_optional_consumes (today : Nat) (now : Int) (req : ApiRequest)
    (u : UserRow) (k : ApiKeyRow) (logs : List UsageLogEntry)
    (hres : resolveApiKey req = some k.key_value)
    (hact : k.is_active = 1)
    (hexp : isExpired now k.expires_at = false)
    (huid : u.id = k.user_id)
    (huact : u.is_active = 0) :
    optionalApiKey today now req
        { users := [u], keys := [k], usage_logs := logs } =
      (.next none none none,
       { users := [u],
         keys := [{ rollover today k with
           requests_today := (rollover today k).requests_today + 1 }],
         usage_logs := logs }) ∧
    (∀ (t2 : Nat) (n2 : Int) (r2 : ApiRequest) (d2 : Db),
      (optionalApiKey t2 n2 r2 d2).1.callsNext = true) := by
  constructor
  · by_cases hle : (rollover today k).requests_today + 1 ≤ k.daily_limit
    · simp [optionalApiKey, hres, findApiKeyByValue, lookupKeyByValue,
        lookupUserById, updateApiKeyUsage, lookupKeyById, setKeyRow,
        hact, hexp, huid, huact, hle]
    · simp [optionalApiKey, hres, findApiKeyByValue, lookupKeyByValue,
        lookupUserById, updateApiKeyUsage, lookupKeyById, setKeyRow,
        hact, hexp, huid, huact, hle]
  · intro t2 n2 r2 d2
    simp only [optionalApiKey]
    repeat' split
    all_goals rfl

/-- Witness for C10: key `kLedger` reowned by the deactivated `uInactive`,
day 5. -/
theorem c10_optional_consumes_witness :
    optionalApiKey 5 1000 reqLedger
        { users := [uInactive], keys := [kLedger], usage_logs := [] } =
      (.next none none none,
       { users := [uInactive],
         keys := [{ rollover 5 kLedger with
           requests_today := (rollover 5 kLedger).requests_today + 1 }],
         usage_logs := [] }) ∧
    (∀ (t2 : Nat) (n2 : Int) (r2 : ApiRequest) (d2 : Db),
      (optionalApiKey t2 n2 r2 d2).1.callsNext = true) :=
  c10_optional_consumes 5 1000 reqLedger uInactive kLedger [] rfl rfl rfl
    rfl rfl

/-- C5 (the defect the claim forbids, exhibited on the code): one admitted
request through `authenticateApiKey` followed by the response-time send
wrapper leaves two disjoint usage-log rows — the first with null status
written at authentication time, the second with status and latency written
at response time — so the per-day aggregate counts this single request
twice. -/
theorem c5_two_disjoint_log_rows :
    (authenticateApiKey 5 1000 reqLedger dbLedger).1.callsNext = true ∧
    (responseTimeSend (authenticateApiKey 5 1000 reqLedger dbLedger).1 200 42
        "/api/ai" "10.0.0.1"
        (authenticateApiKey 5 1000 reqLedger dbLedger).2).usage_logs =
      [{ user_id := 1, api_key_id := 1, endpoint := "/api/ai",
         status_code := none, response_time := none,
         ip_address := "10.0.0.1" },
       { user_id := 1, api_key_id := 1, endpoint := "/api/ai",
         status_code := some 200, response_time := some 42,
         ip_address := "10.0.0.1" }] ∧
    (responseTimeSend (authenticateApiKey 5 1000 reqLedger dbLedger).1 200 42
        "/api/ai" "10.0.0.1"
        (authenticateApiKey 5 1000 reqLedger dbLedger).2).usage_logs.length =
      dbLedger.usage_logs.length + 2 := by
  refine ⟨by decide, by decide, by decide⟩

/-- C6 counterexample: with limit 1 and windowMs 60000, at now = 60000 the
single recorded timestamp 0 lies inside the closed window from
now - windowMs to now — so the claim demands rejection — yet the code admits
the request, because its filter keeps only timestamps strictly newer than
now - windowMs. -/
theorem c6_window_counterexample :
    (([(0 : Int)].filter
        (fun t => decide ((60000 : Int) - 60000 ≤ t ∧ t ≤ 60000))).length
      = 1) ∧
    (rateLimiter 1 60000 60000 [0]).nextCalled = true := by
  refine ⟨by decide, by decide⟩

/-- C6 (amended: the window is half-open, excluding its left endpoint
now - windowMs): provided every recorded timestamp is at most now, the
request is admitted iff strictly fewer than limit recorded timestamps lie in
the half-open window; on admission now is appended to the pruned in-window
list; on rejection the response is HTTP 429 `RATE_LIMITED`, the stored list
is unchanged and the downstream handler is not invoked. -/
theorem c6_sliding_window (lim : Nat) (windowMs now : Int)
    (stored : List Int) (hpast : ∀ t ∈ stored, t ≤ now) :
    ((rateLimiter lim windowMs now stored).nextCalled = true ↔
      (stored.filter
        (fun t => decide (now - windowMs < t ∧ t ≤ now))).length < lim) ∧
    ((stored.filter
        (fun t => decide (now - windowMs < t ∧ t ≤ now))).length < lim →
      (rateLimiter lim windowMs now stored).timestamps =
        stored.filter (fun t => decide (now - windowMs < t)) ++ [now]) ∧
    (lim ≤ (stored.filter
        (fun t => decide (now - windowMs < t ∧ t ≤ now))).length →
      (rateLimiter lim windowMs now stored).response =
          some (429, "RATE_LIMITED") ∧
        (rateLimiter lim windowMs now stored).nextCalled = false ∧
        (rateLimiter lim windowMs now stored).timestamps = stored) := by
  have hfe : stored.filter (fun t => decide (now - windowMs < t ∧ t ≤ now)) =
      stored.filter (fun t => decide (now - windowMs < t)) := by
    apply List.filter_congr
    intro t ht
    have h := hpast t ht
    simp [h]
  rw [hfe]
  by_cases h : lim ≤
      (stored.filter (fun t => decide (now - windowMs < t))).length
  · refine ⟨?_, ?_, ?_⟩ <;> simp [rateLimiter, h] <;> omega
  · refine ⟨?_, ?_, ?_⟩ <;> simp [rateLimiter, h] <;> omega

/-- Witness for C6: limit 1, windowMs 60000, now 60000, one stored
timestamp 10. -/
theorem c6_sliding_window_witness :
    ((rateLimiter 1 60000 60000 [10]).nextCalled = true ↔
      ([(10 : Int)].filter
        (fun t => decide ((60000 : Int) - 60000 < t ∧ t ≤ 60000))).length
        < 1) ∧
    (([(10 : Int)].filter
        (fun t => decide ((60000 : Int) - 60000 < t ∧ t ≤ 60000))).length
        < 1 →
      (rateLimiter 1 60000 60000 [10]).timestamps =
        [(10 : Int)].filter
          (fun t => decide ((60000 : Int) - 60000 < t)) ++ [60000]) ∧
    (1 ≤ ([(10 : Int)].filter
        (fun t => decide ((60000 : Int) - 60000 < t ∧ t ≤ 60000))).length →
      (rateLimiter 1 60000 60000 [10]).response =
          some (429, "RATE_LIMITED") ∧
        (rateLimiter 1 60000 60000 [10]).nextCalled = false ∧
        (rateLimiter 1 60000 60000 [10]).timestamps = [10]) :=
  c6_sliding_window 1 60000 60000 [10] (by decide)

end BaseApi
